import Mathlib

/-!
Verification development for the multitenant retail AI analyst service.

This file shallowly embeds the parts of the source that the checked
properties are about:

* `lib/db/runTenantScopedQuery.js` — the read-only SQL guard
  (`assertReadOnly`), row-level scope enforcement (`enforceScope`) and the
  scoped executor (`runTenantScopedQuery`);
* `lib/chat/convertToSQL.js` — `executeDataSQL` and the SQL-fence stripping
  of `convertToSQL`;
* `lib/chat/buildAnswer.js` — `buildTable`, `buildRagMeta`,
  `buildAnswerPayload`, `persistAssistantMessage`, `updateMessageSummary`
  (summary cadence);
* `lib/chat/buildAreaChart.js` — the full chart-inference pipeline;
* `lib/chat/handleNonData.js`, `lib/chat/classifyDataRequest.js`,
  `lib/chat/conversationBootstrap.js` and the SSE chat endpoint
  `pages/api/chat/ask.js` (streaming, multitenant version) — modelled as a
  pure function from an oracle environment (LLM replies, database results)
  to the ordered list of observable effects (SSE events, row inserts, LLM
  invocations).

LLM calls and database queries are external, so their results are supplied
by an `Env` oracle; everything the JavaScript itself computes (string
guards, wrapping, token arithmetic, table/chart assembly, control flow,
persistence order) is embedded faithfully.  JavaScript strings are modelled
over `List Char` (code points); machine floats only occur as SQL cell
values and are modelled as `ℚ` (the properties checked do not depend on
float rounding, only on parse success/failure).
-/

deriving instance DecidableEq for Except

namespace RetailAnalyst

/-! ## JavaScript string primitives (code-point model) -/

/-- The character class of the JS regex `\s` restricted to the ASCII
whitespace characters that can occur in generated SQL. -/
def jsWhitespace (c : Char) : Bool :=
  c == ' ' || c == '\t' || c == '\n' || c == '\r' || c == '\x0b' || c == '\x0c'

/-- One pass of `replace(/\s+/g, " ")`: every maximal whitespace run becomes
a single space. -/
def collapseWs : List Char → List Char
  | [] => []
  | [c] => if jsWhitespace c then [' '] else [c]
  | c :: d :: rest =>
    if jsWhitespace c && jsWhitespace d then collapseWs (d :: rest)
    else (if jsWhitespace c then ' ' else c) :: collapseWs (d :: rest)

/-- JS `String.prototype.trim` on a code-point list. -/
def jsTrimChars (l : List Char) : List Char :=
  ((l.dropWhile (fun c => jsWhitespace c)).reverse.dropWhile (fun c => jsWhitespace c)).reverse

/-- JS `String.prototype.trim`. -/
def jsTrimString (s : String) : String :=
  String.mk (jsTrimChars s.toList)

/-- ASCII case mapping of `String.prototype.toUpperCase` (generated SQL is
ASCII; the non-ASCII mappings are never exercised). -/
def jsUpperChar (c : Char) : Char :=
  if 'a' ≤ c && c ≤ 'z' then Char.ofNat (c.toNat - 32) else c

/-- ASCII case mapping of `String.prototype.toLowerCase`. -/
def jsLowerChar (c : Char) : Char :=
  if 'A' ≤ c && c ≤ 'Z' then Char.ofNat (c.toNat + 32) else c

/-- `s.toUpperCase()`. -/
def jsToUpper (s : String) : String :=
  String.mk (s.toList.map jsUpperChar)

/-- Code-point list prefix test. -/
def isPrefixChars : List Char → List Char → Bool
  | [], _ => true
  | _ :: _, [] => false
  | a :: as, b :: bs => a == b && isPrefixChars as bs

/-- `hay.includes(needle)` on code-point lists. -/
def containsSub (needle : List Char) : List Char → Bool
  | [] => isPrefixChars needle []
  | c :: t => isPrefixChars needle (c :: t) || containsSub needle t

/-- `hay.includes(needle)`. -/
def strIncludes (hay needle : String) : Bool :=
  containsSub needle.toList hay.toList

/-- `s.startsWith(pre)`. -/
def jsStartsWith (s pre : String) : Bool :=
  isPrefixChars pre.toList s.toList

/-! ## lib/db/runTenantScopedQuery.js -/

/-- `normalize(sql)`: `sql.replace(/\s+/g, " ").trim()`. -/
def normalize (sql : String) : String :=
  String.mk (jsTrimChars (collapseWs sql.toList))

/-- A thrown `Error` with its attached `err.code`. -/
structure SqlError where
  message : String
  code : String
deriving DecidableEq, Repr

/-- `assertReadOnly(sql)` from `lib/db/runTenantScopedQuery.js`.  The
stacked-statement check (`s.includes("; ")` → `SQL_MULTIPLE_STATEMENTS`)
is commented out in the source and is therefore absent here. -/
def assertReadOnly (sql : String) : Except SqlError Unit :=
  let s := jsToUpper (normalize sql)
  if !(jsStartsWith s "SELECT ") then
    .error { message := "Only SELECT queries are allowed", code := "SQL_NOT_READ_ONLY" }
  else if strIncludes s "--" || strIncludes s "/*" || strIncludes s "*/" then
    .error { message := "SQL comments are not allowed", code := "SQL_COMMENTS_NOT_ALLOWED" }
  else if strIncludes s " UNION " then
    .error { message := "UNION queries are not allowed", code := "SQL_UNION_NOT_ALLOWED" }
  else if !(strIncludes s " LIMIT ") then
    .error { message := "LIMIT clause is required", code := "SQL_LIMIT_REQUIRED" }
  else
    .ok ()

/-- The exact template-literal text produced by `enforceScope` when a
non-empty filter is present (including the template's newlines and
indentation). -/
def scopeWrap (sql scopeFilter : String) : String :=
  "\n    SELECT *\n    FROM (\n      " ++ sql ++
    "\n    ) AS scoped_result\n    WHERE (" ++ scopeFilter ++ ")\n  "

/-- `enforceScope(sql, scopeFilter)`: `if (!scopeFilter) return sql;` then
always wrap.  A missing (`NULL`) or empty filter is falsy. -/
def enforceScope (sql : String) (scopeFilter : Option String) : String :=
  match scopeFilter with
  | none => sql
  | some f => if f == "" then sql else scopeWrap sql f

/-- A JavaScript value as it appears in a SQL result cell.  `vdate none`
is an invalid `Date`; `vdate (some iso)` is a valid `Date` whose
`toISOString()` is `iso`. -/
inductive JsVal where
  | vnull
  | vnum (q : ℚ)
  | vstr (s : String)
  | vdate (iso : Option String)
deriving DecidableEq

/-- A result row as returned by the mysql2 driver (`r[key]` lookup). -/
abbrev Row := List (String × JsVal)

/-- A result-set field descriptor (`f.name`). -/
structure Field where
  name : String
deriving DecidableEq

/-- `r[key]`: a missing property reads as `undefined`, which satisfies the
same `v == null` checks as `null`. -/
def rowGet (r : Row) (key : String) : JsVal :=
  match r.lookup key with
  | some v => v
  | none => .vnull

/-- Failure of the scoped executor: either the guard threw, or the
database query itself rejected. -/
inductive QueryFailure where
  | guard (e : SqlError)
  | db (message : String)
deriving DecidableEq

/-- The `message` carried by a thrown failure (`String(err.message)`). -/
def failureMessage : QueryFailure → String
  | .guard e => e.message
  | .db m => m

/-- The resolved value of `runTenantScopedQuery`. -/
structure ScopedQueryResult where
  rows : List Row
  fields : List Field
  sql : String
deriving DecidableEq

/-- The tenant record as used by the executor (`tenant.scope_filter`). -/
structure Tenant where
  scope_filter : Option String
deriving DecidableEq

/-- `runTenantScopedQuery(tenant, sql)`: guard, wrap, then query the
tenant's data database (supplied as the function `db`). -/
def runTenantScopedQuery (db : String → Except String (List Row × List Field))
    (tenant : Tenant) (sql : String) : Except QueryFailure ScopedQueryResult :=
  match assertReadOnly sql with
  | .error e => .error (.guard e)
  | .ok _ =>
    let scopedSql := enforceScope sql tenant.scope_filter
    match db scopedSql with
    | .error m => .error (.db m)
    | .ok (rows, fields) => .ok { rows := rows, fields := fields, sql := scopedSql }

/-- SQL semantics of the wrapper shape `SELECT * FROM (inner) AS
scoped_result WHERE (p)`: the outer `WHERE` filters the full inner result
set, whatever the inner statement computed. -/
def evalScopedWrapper (innerRows : List Row) (scopePred : Row → Bool) : List Row :=
  innerRows.filter scopePred

/-! ## lib/chat/convertToSQL.js -/

/-- `executeDataSQL`'s resolved shape (`durationMs` is wall-clock time and
is supplied by the caller's environment). -/
structure ExecOutcome where
  sql : String
  rows : List Row
  fields : List Field
  rowCount : Nat
  status : String
  errorMessage : Option String
deriving DecidableEq

/-- `executeDataSQL({tenant, sql})`: run the scoped query, swallow any
thrown error; on success the scoped/rewritten SQL replaces the input
(`sql = result.sql`), on failure the input `sql` is kept. -/
def executeDataSQL (db : String → Except String (List Row × List Field))
    (tenant : Tenant) (sql : String) : ExecOutcome :=
  match runTenantScopedQuery db tenant sql with
  | .ok r =>
    { sql := r.sql, rows := r.rows, fields := r.fields, rowCount := r.rows.length,
      status := "success", errorMessage := none }
  | .error f =>
    { sql := sql, rows := [], fields := [], rowCount := 0,
      status := "error", errorMessage := some (failureMessage f) }

/-- Case-insensitive removal of every occurrence of ```` ```sql ````
(`.replace(/```sql/gi, "")`), scanning left to right.  The `fuel`
argument (instantiated with the list length, an upper bound on the number
of scan steps) keeps the recursion structural. -/
def stripSqlFencesAux : Nat → List Char → List Char
  | 0, _ => []
  | _, [] => []
  | fuel + 1, c :: rest =>
    if ((c :: rest).take 6).map jsLowerChar == "```sql".toList then
      stripSqlFencesAux fuel (rest.drop 5)
    else
      c :: stripSqlFencesAux fuel rest

/-- See `stripSqlFencesAux`. -/
def stripSqlFences (l : List Char) : List Char :=
  stripSqlFencesAux l.length l

/-- Removal of every occurrence of ```` ``` ```` (`.replace(/```/g, "")`);
fuel as in `stripSqlFencesAux`. -/
def stripFence3Aux : Nat → List Char → List Char
  | 0, _ => []
  | _, [] => []
  | fuel + 1, c :: rest =>
    if (c :: rest).take 3 == "```".toList then
      stripFence3Aux fuel (rest.drop 2)
    else
      c :: stripFence3Aux fuel rest

/-- See `stripFence3Aux`. -/
def stripFence3 (l : List Char) : List Char :=
  stripFence3Aux l.length l

/-- `convertToSQL`'s post-processing of the raw model reply:
`raw.trim()` then fence stripping then `.trim() || sqlRaw`. -/
def cleanSqlResponse (raw : String) : String :=
  let sqlRaw := jsTrimString raw
  let s := jsTrimString (String.mk (stripFence3 (stripSqlFences sqlRaw.toList)))
  if s == "" then sqlRaw else s

/-! ## Token usage plumbing (lib/chat/handleNonData.js helpers) -/

/-- `usage_metadata` token counts. -/
structure Usage where
  input_tokens : Nat
  output_tokens : Nat
  total_tokens : Nat
deriving DecidableEq

/-- `emptyUsage()`. -/
def emptyUsage : Usage := { input_tokens := 0, output_tokens := 0, total_tokens := 0 }

/-- `normalizeUsage(usage)`: `Number(usage?.field) || 0`; an absent
(`undefined`) argument normalizes to all zeros. -/
def normalizeUsage : Option Usage → Usage
  | none => { input_tokens := 0, output_tokens := 0, total_tokens := 0 }
  | some u => u

/-- `addUsage(total, next)`. -/
def addUsage (total : Usage) (next : Option Usage) : Usage :=
  let safe := normalizeUsage next
  { input_tokens := total.input_tokens + safe.input_tokens,
    output_tokens := total.output_tokens + safe.output_tokens,
    total_tokens := total.total_tokens + safe.total_tokens }

/-- The `meta.tokens` block of an answer payload. -/
structure Tokens where
  model : String
  input : Nat
  output : Nat
  total : Nat
deriving DecidableEq

/-- `tokensFromUsage(modelName, usage)`. -/
def tokensFromUsage (modelName : String) (u : Usage) : Tokens :=
  { model := modelName, input := u.input_tokens, output := u.output_tokens,
    total := u.total_tokens }

/-! ## lib/chat/buildAreaChart.js -/

/-- Model of the JS `Number()` builtin on the string shapes that SQL cells
produce: optional sign, decimal digits, optional fractional part.
`none` is `NaN`; the empty string converts to `0` (callers exclude it
before parsing).  Exponent/hex forms are not produced by the data path. -/
def natOfDigits (l : List Char) : Nat :=
  l.foldl (fun acc c => acc * 10 + (c.toNat - 48)) 0

/-- Unsigned part of `jsNumber`. -/
def jsNumberCore (body : List Char) : Option ℚ :=
  let intPart := body.takeWhile (fun c => c != '.')
  let rest := body.dropWhile (fun c => c != '.')
  match rest with
  | [] =>
    if intPart.isEmpty || !(intPart.all Char.isDigit) then none
    else some (natOfDigits intPart)
  | _ :: frac =>
    if frac.any (fun c => c == '.') then none
    else if !(intPart.all Char.isDigit) || !(frac.all Char.isDigit) then none
    else if intPart.isEmpty && frac.isEmpty then none
    else some ((natOfDigits intPart : ℚ) + (natOfDigits frac : ℚ) / ((10 : ℚ) ^ frac.length))

/-- `Number(s)` (see `jsNumberCore`). -/
def jsNumber (s : String) : Option ℚ :=
  match s.toList with
  | [] => some 0
  | '-' :: rest => (jsNumberCore rest).map (fun q => -q)
  | '+' :: rest => jsNumberCore rest
  | l => jsNumberCore l

/-- `s.replace(/,/g, "")`. -/
def stripCommas (s : String) : String :=
  String.mk (s.toList.filter (fun c => c != ','))

/-- `normalizeXAxisValue(value)`: `null`/`undefined` → `null`; a valid
`Date` → `toISOString().slice(0, 10)`; otherwise `String(value).trim()`
with the empty string mapped to `null`.  `String` of an invalid `Date` is
`"Invalid Date"`; numeric x-values are rendered by `jsNumToString` (a
model of JS number formatting — no claim exercises numeric x-values). -/
def jsNumToString (q : ℚ) : String :=
  if q.den = 1 then toString q.num else toString q.num ++ "/" ++ toString q.den

/-- See `jsNumToString` for the numeric case. -/
def normalizeXAxisValue : JsVal → Option String
  | .vnull => none
  | .vdate (some iso) => some (String.mk (iso.toList.take 10))
  | .vdate none =>
    let s := jsTrimString "Invalid Date"
    if s == "" then none else some s
  | .vnum q =>
    let s := jsTrimString (jsNumToString q)
    if s == "" then none else some s
  | .vstr s0 =>
    let s := jsTrimString s0
    if s == "" then none else some s

/-- `clampArray(arr, max)`. -/
def clampArray {α : Type} (l : List α) (max : Nat) : List α :=
  if l.length ≤ max then l else l.take max

/-- `detectYearMonthKey(columns)`. -/
def detectYearMonthKey (columns : List String) : Option String :=
  if columns.isEmpty then none
  else if columns.contains "metrics.yearmonth" then some "metrics.yearmonth"
  else if columns.contains "yearmonth" then some "yearmonth"
  else if columns.contains "Month-Year" then some "Month-Year"
  else if columns.contains "Month" then some "Month"
  else none

/-- The per-key counting loop of `getNumericCandidateKeys`: how many
sampled values are non-null, and how many of those are numeric or
numeric-parseable strings (comma groups removed). -/
def countsForKey (sample : List Row) (key : String) : Nat × Nat :=
  sample.foldl
    (fun (acc : Nat × Nat) r =>
      let v := rowGet r key
      if v == .vnull || v == .vstr "" then acc
      else
        let numericHit :=
          match v with
          | .vnum _ => 1
          | .vstr s =>
            let t := jsTrimString s
            if t == "" then 0
            else if (jsNumber (stripCommas t)).isSome then 1 else 0
          | _ => 0
        (acc.1 + 1, acc.2 + numericHit))
    (0, 0)

/-- `getNumericCandidateKeys(columns, rows, excludeKey)`: keys whose
sampled values are at least 60% numeric (`numeric / nonNull >= 0.6`,
stated rationally). -/
def getNumericCandidateKeys (columns : List String) (rows : List Row)
    (excludeKey : String) : List String :=
  if columns.isEmpty || rows.isEmpty then []
  else
    let sample := clampArray rows 50
    columns.filterMap fun col =>
      if col == "" then none
      else if col == excludeKey then none
      else
        let counts := countsForKey sample col
        if counts.1 == 0 then none
        else if counts.1 * 3 ≤ counts.2 * 5 then some col
        else none

/-- Does `key` match the case-insensitive alternation regex given by
`words` (each alternative is a literal, so the test is substring
containment after lowercasing)? -/
def matchesAnyWord (key : String) (words : List String) : Bool :=
  words.any fun w => strIncludes (String.mk (key.toList.map jsLowerChar)) w

/-- `pickMetricHeuristic(candidateKeys)`. -/
def pickMetricHeuristic (candidateKeys : List String) : Option String :=
  match candidateKeys with
  | [] => none
  | [k] => some k
  | _ =>
    let p1 := ["revenue", "sales", "amount", "total", "gross", "net", "profit"]
    let p2 := ["count", "transactions", "orders", "qty", "quantity", "units"]
    let p3 := ["points", "visits", "members", "customers"]
    match candidateKeys.find? (fun k => matchesAnyWord k p1) with
    | some k => some k
    | none =>
      match candidateKeys.find? (fun k => matchesAnyWord k p2) with
      | some k => some k
      | none =>
        match candidateKeys.find? (fun k => matchesAnyWord k p3) with
        | some k => some k
        | none => candidateKeys.head?

/-- `inferMetricKeyWithAI`: the LLM reply (already JSON-extracted
`metricKey`, or `none` when absent) comes from the oracle `aiResp`;
`.error` models the call throwing.  The reply is trimmed and validated
against the candidate list. -/
def inferMetricKeyWithAI (numericCandidates : List String)
    (aiResp : Except Unit (Option String × Usage)) :
    Except Unit (Option String × Usage) :=
  if numericCandidates.isEmpty then .ok (none, emptyUsage)
  else
    match aiResp with
    | .error e => .error e
    | .ok (reply, usage) =>
      let metricKey := jsTrimString (match reply with | some s => s | none => "")
      if metricKey == "" then .ok (none, usage)
      else if !(numericCandidates.contains metricKey) then .ok (none, usage)
      else .ok (some metricKey, usage)

/-- One point of the recharts payload: `{[dateKey]: x, [metricKey]: y}`. -/
structure ChartPoint where
  x : String
  y : JsVal
deriving DecidableEq

/-- The `.map(...)` body of the series construction (`raw`): `null` when
the row is dropped.  `isPlainObject(r)` always holds for driver rows.
Numeric strings are parsed (`Number(v.trim().replace(/,/g, ""))`) and
replace `y` only when the parse is finite; the final
`typeof y === "number" && !Number.isFinite(y)` drop never fires in the
ℚ model (no NaN/Infinity cells). -/
def chartPointOfRow (dateKey metricKey : String) (r : Row) : Option ChartPoint :=
  match normalizeXAxisValue (rowGet r dateKey) with
  | none => none
  | some x =>
    let v := rowGet r metricKey
    if v == .vnull || v == .vstr "" then none
    else
      let y :=
        match v with
        | .vstr s =>
          match jsNumber (stripCommas (jsTrimString s)) with
          | some n => JsVal.vnum n
          | none => JsVal.vstr s
        | other => other
      some { x := x, y := y }

/-- Ascending code-point comparison of the `localeCompare` comparator
(`compareYearMonth`); on the supported ASCII year-month-first date strings
locale collation and code-point order coincide. -/
def charListLe : List Char → List Char → Bool
  | [], _ => true
  | _ :: _, [] => false
  | a :: as, b :: bs =>
    if a.toNat = b.toNat then charListLe as bs else decide (a.toNat < b.toNat)

/-- The sort order on chart points. -/
def xLe (a b : ChartPoint) : Bool :=
  charListLe a.x.toList b.x.toList

/-- The series pipeline: cap the rows at `MAX_CHART_POINTS = 200`, map,
drop `null`s (`filter(Boolean)`), then `slice().sort(compareYearMonth)`
(stable ascending sort, modelled by insertion sort). -/
def buildChartData (dateKey metricKey : String) (rows : List Row) : List ChartPoint :=
  let raw := (clampArray rows 200).filterMap (chartPointOfRow dateKey metricKey)
  List.insertionSort (fun a b => xLe a b = true) raw

/-- The chart block of the answer payload. -/
structure Chart where
  type : String
  xKey : String
  yKey : String
  data : List ChartPoint
deriving DecidableEq

/-- What `buildBasicAreaChartPayload` resolves to. -/
structure ChartResult where
  chart : Option Chart
  usage : Usage
deriving DecidableEq

/-- The metric-key selection of `buildBasicAreaChartPayload`: the AI
inference in a `try`/`catch` (a throw falls back with no usage recorded),
then `if (!metricKey) metricKey = pickMetricHeuristic(...)`. -/
def chooseMetricKey (numericCandidates : List String)
    (aiResp : Except Unit (Option String × Usage)) : Option String × Usage :=
  let inferred :=
    match inferMetricKeyWithAI numericCandidates aiResp with
    | .error _ => (none, emptyUsage)
    | .ok (k, u) => (k, u)
  (match inferred.1 with
   | some k => some k
   | none => pickMetricHeuristic numericCandidates,
   inferred.2)

/-- `buildBasicAreaChartPayload({question, columns, rows, llm})`.  The
first component records whether the AI metric-inference call was reached
(for the effect trace); the oracle `aiResp` stands for that call. -/
def buildBasicAreaChartPayload (columns : List String) (rows : List Row)
    (aiResp : Except Unit (Option String × Usage)) : Bool × ChartResult :=
  match detectYearMonthKey columns with
  | none => (false, { chart := none, usage := emptyUsage })
  | some dateKey =>
    if (getNumericCandidateKeys columns rows dateKey).isEmpty then
      (false, { chart := none, usage := emptyUsage })
    else
      let chosen := chooseMetricKey (getNumericCandidateKeys columns rows dateKey) aiResp
      match chosen.1 with
      | none => (true, { chart := none, usage := chosen.2 })
      | some metricKey =>
        if (buildChartData dateKey metricKey rows).isEmpty then
          (true, { chart := none, usage := chosen.2 })
        else
          (true,
            { chart := some { type := "basicareachart", xKey := dateKey,
                              yKey := metricKey,
                              data := buildChartData dateKey metricKey rows },
              usage := chosen.2 })

/-- `buildAreaChart({question, fields, rows, llm})`. -/
def buildAreaChart (fields : List Field) (rows : List Row)
    (aiResp : Except Unit (Option String × Usage)) : Bool × ChartResult :=
  buildBasicAreaChartPayload (fields.map (fun f => f.name)) rows aiResp

/-! ## lib/chat/buildAnswer.js — table / payload assembly -/

/-- A `downloads` entry. -/
structure Download where
  kind : String
  filename : String
  mimeType : String
  content : String
deriving DecidableEq

/-- The `table` block. -/
structure TablePayload where
  columns : List String
  rows : List Row
  rowCount : Nat
  truncated : Bool
deriving DecidableEq

/-- What `buildTable` returns. -/
structure TableResult where
  table : TablePayload
  downloads : List Download
deriving DecidableEq

/-- Model of `Papa.unparse(rows, {skipEmptyLines: true})`; the CSV text
itself is not claim-relevant, only whether an entry is produced. -/
def papaUnparse (rows : List Row) : String :=
  let header :=
    match rows with
    | [] => ""
    | r :: _ => String.intercalate "," (r.map (fun kv => kv.1))
  let line (r : Row) : String :=
    String.intercalate ","
      (r.map fun kv =>
        match kv.2 with
        | .vnull => ""
        | .vnum q => jsNumToString q
        | .vstr s => s
        | .vdate (some iso) => iso
        | .vdate none => "Invalid Date")
  String.intercalate "\n" (header :: rows.map line)

/-- `buildTable({fields, rows, convId, maxRows, csvThreshold})`; `now` is
`Date.now()` (used only in the export filename). -/
def buildTable (fields : List Field) (rows : List Row) (convId : Nat)
    (maxRows : Nat) (csvThreshold : Nat) (now : Nat) : TableResult :=
  let columns := fields.map (fun f => f.name)
  let fullRowCount := rows.length
  let truncated := decide (maxRows < fullRowCount)
  let tableRows := if maxRows < fullRowCount then rows.take maxRows else rows
  let downloads :=
    if csvThreshold ≤ fullRowCount then
      [{ kind := "csv",
         filename := "export-" ++ toString convId ++ "-" ++ toString now ++ ".csv",
         mimeType := "text/csv", content := papaUnparse rows }]
    else []
  { table := { columns := columns, rows := tableRows, rowCount := fullRowCount,
               truncated := truncated },
    downloads := downloads }

/-- The `rag` block of `buildRagMeta` (the shaped `sources` entries are
summarized by their count; their fields are not claim-relevant). -/
structure RagMeta where
  requested : Bool
  used : Bool
  error : Option String
  sourceCount : Nat
deriving DecidableEq

/-- `buildRagMeta({requested, retrievedDocs, ragError})`. -/
def buildRagMeta (requested : Bool) (retrievedDocs : List String)
    (ragError : Option String) : RagMeta :=
  { requested := requested,
    used := requested && decide (0 < retrievedDocs.length),
    error := ragError,
    sourceCount := retrievedDocs.length }

/-- The `meta` block of an answer payload. -/
structure AnswerMeta where
  sql : Option String
  sqlQueryId : Option Nat
  tokens : Tokens
  rag : RagMeta
deriving DecidableEq

/-- The versioned UI answer payload.  The `chart` field holds whatever
value the handler stored there: the data path stores the entire
`buildAreaChart` result object (`{chart, usage}`), the non-data path
stores `null`. -/
structure AnswerPayload where
  version : String
  status : String
  answerText : String
  table : TablePayload
  downloads : List Download
  chart : Option ChartResult
  meta : AnswerMeta
deriving DecidableEq

/-- `buildAnswerPayload({...})` (data path). -/
def buildAnswerPayload (answerText sqlText : String) (sqlQueryId : Nat)
    (usage : Usage) (modelName : String) (table : TablePayload)
    (downloads : List Download) (chart : ChartResult) (rag : RagMeta) :
    AnswerPayload :=
  { version := "v1", status := "complete", answerText := answerText,
    table := table, downloads := downloads, chart := some chart,
    meta := { sql := some sqlText, sqlQueryId := some sqlQueryId,
              tokens := tokensFromUsage modelName usage, rag := rag } }

/-! ## Persistence records (core database rows) -/

/-- A row of the `messages` table as selected for the frontend
(`SELECT id, role, content, answer_payload, created_at ...`). -/
structure MessageRecord where
  id : Nat
  role : String
  content : String
  answer_payload : Option String
  created_at : Nat
deriving DecidableEq

/-- A row of `sql_queries` (the SqlQueryRecord audit log). -/
structure SqlQueryRecord where
  sql_text : String
  status : String
  rows_returned : Nat
  error_message : Option String
  duration_ms : Nat
deriving DecidableEq

/-- A row of `query_logs` (telemetry). -/
structure QueryLogRecord where
  question : String
  answer_summary : Option String
  sql_query : String
  used_rag : Bool
  model : String
  prompt_tokens : Nat
  completion_tokens : Nat
  total_tokens : Nat
  latency_ms : Nat
deriving DecidableEq

/-- A row of `token_usage` (the TokenUsageRecord). -/
structure TokenUsageRecord where
  model : String
  prompt_tokens : Nat
  completion_tokens : Nat
  total_tokens : Nat
deriving DecidableEq

/-- The dynamically-typed value the handler places in the final event's
`messages` field: the non-data path passes the selected message array,
while the data path passes `updateMessageSummary`'s whole return object
`{messages, usage}` without destructuring it. -/
inductive JsMessages where
  | list (msgs : List MessageRecord)
  | summaryResult (messages : List MessageRecord) (usage : Usage)
deriving DecidableEq

/-- Is the `messages` value an array (as the UI contract expects)? -/
def isMessageArray : JsMessages → Bool
  | .list _ => true
  | .summaryResult _ _ => false

/-! ## The streaming chat endpoint (pages/api/chat/ask.js, multitenant) -/

/-- An LLM invocation, tagged with the pipeline step and the data the
prompt template receives where claim-relevant (`summarizeAnswer` carries
the SQL string shown to the summarizer). -/
inductive LlmCall where
  | classify (question : String)
  | nonDataResponse (question : String)
  | convertSQL (question : String)
  | summarizeAnswer (sqlShown : String)
  | chartMetric
  | conversationSummary
deriving DecidableEq

/-- One observable effect of a turn, in program order: SSE emissions,
core-database writes, data-database queries and LLM invocations. -/
inductive Effect where
  | statusMsg (message : String) (progress : Option Nat)
  | progressEvt (p : Nat)
  | errorEvt (statusCode : Nat) (code : String) (message : String)
  | finalEvt (conversationId : Nat) (messages : JsMessages) (answerPayload : AnswerPayload)
  | insertConversation (title : String)
  | insertUserMessage (content : String)
  | llm (c : LlmCall)
  | dataDbQuery (sql : String)
  | insertSqlQuery (r : SqlQueryRecord)
  | insertQueryLog (r : QueryLogRecord)
  | insertQuerySources (count : Nat)
  | insertAssistantMessage (content : String) (payload : AnswerPayload)
  | insertTokenUsage (r : TokenUsageRecord)
  | updateConversationSummary (summary : String)
deriving DecidableEq

/-- `emitStatus(message, progress)` with a numeric progress also emits a
dedicated `progress` event (`lib/http/sse.js`). -/
def emitStatusE (message : String) (progress : Nat) : List Effect :=
  [.statusMsg message (some progress), .progressEvt progress]

/-- The authenticated user context (`requireUserAndTenant`). -/
structure User where
  userId : Nat
  tenantId : Nat
deriving DecidableEq

/-- Outcome of `requireAuth` + `requireUserAndTenant` (external lookups). -/
inductive AuthOutcome where
  | ok (user : User) (tenant : Tenant)
  | unauthorized
  | forbidden
  | tenantNotFound

/-- An incoming request, together with the auth/tenancy resolution and
whether a supplied `conversationId` exists for this user and tenant. -/
structure Request where
  method : String
  auth : AuthOutcome
  conversationId : Option Nat
  conversationExists : Bool
  question : String
  useRag : Bool

/-- Oracle environment: the replies of the external collaborators (LLM,
data database, core-database reads) and ambient values (wall time, insert
ids).  `Except.error` models the corresponding call throwing.
`classifyUsage` records what the classification call consumed — the code
never reads `usage_metadata` on that call, so no field of the trace can
depend on it. -/
structure Env where
  newConvId : Nat
  classifyResp : Except Unit String
  classifyUsage : Usage
  nonDataResp : Except Unit (String × Usage)
  retrievedDocs : List String
  ragError : Option String
  convertResp : Except Unit (String × Usage)
  dataDb : String → Except String (List Row × List Field)
  durationMs : Nat
  sqlQueryInsertId : Nat
  answerResp : Except Unit (String × Usage)
  chartMetricResp : Except Unit (Option String × Usage)
  summaryResp : Except Unit (String × Usage)
  dbMessagesAfterTurn : List MessageRecord
  now : Nat

/-- `MODEL_NAME` of the multitenant endpoint. -/
def MODEL_NAME : String := "gpt-4.1-mini"

/-- `MAX_TABLE_ROWS_IN_RESPONSE`. -/
def MAX_TABLE_ROWS_IN_RESPONSE : Nat := 20

/-- `CSV_EXPORT_ROW_THRESHOLD`. -/
def CSV_EXPORT_ROW_THRESHOLD : Nat := 21

/-- `classifyDataRequest` → `isDataQuestion`: YES/NO prefix test on the
trimmed, uppercased reply; permissive (`true`) on anything else and when
the call throws.  The function returns only the boolean — the call's
token usage is not captured. -/
def classifyOutcome (resp : Except Unit String) : Bool :=
  match resp with
  | .error _ => true
  | .ok text =>
    let t := jsToUpper (jsTrimString text)
    if jsStartsWith t "YES" then true
    else if jsStartsWith t "NO" then false
    else true

/-- `deriveConversationTitle(question)`. -/
def deriveConversationTitle (question : String) : String :=
  let trimmed := jsTrimString question
  if trimmed == "" then "New conversation"
  else if 80 < trimmed.toList.length then String.mk (trimmed.toList.take 77) ++ "..."
  else trimmed

/-- `fallbackNonDataText()` (used when the non-data LLM call throws). -/
def fallbackNonDataText : String :=
  "Got it. This assistant is trained to answer questions by querying your data.  It cannot give answers that are outside the data it carries." ++
    "If you’d like, ask what you want to see in the data and I’ll run the query for you."

/-- The hard fallback inside `buildNonDataResponse` when the model
returns empty text. -/
def emptyNonDataText : String :=
  "Got it. This assistant is wired to answer questions by querying your data. " ++
    "If you’d like, ask what you want to see in the data and I’ll run the query for you."

/-- The `status:"non_data"` answer payload assembled by `handleNonData`. -/
def nonDataAnswerPayload (ack : String) (modelName : String) (totalUsage : Usage) :
    AnswerPayload :=
  { version := "v1", status := "non_data", answerText := ack,
    table := { columns := [], rows := [], rowCount := 0, truncated := false },
    downloads := [], chart := none,
    meta := { sql := none, sqlQueryId := none,
              tokens := tokensFromUsage modelName totalUsage,
              rag := { requested := false, used := false, error := none,
                       sourceCount := 0 } } }

/-- `handleNonData({question, user, convId, ..., classificationUsage})`.
`classificationUsage` is `none` when the caller omits the argument. -/
def handleNonData (env : Env) (question : String) (convId : Nat)
    (modelName : String) (classificationUsage : Option Usage) : List Effect :=
  let ackAndUsage :=
    match env.nonDataResp with
    | .error _ => (fallbackNonDataText, emptyUsage)
    | .ok (text, u) =>
      let t := jsTrimString text
      if t == "" then (emptyNonDataText, u) else (t, u)
  let totalUsage := addUsage (addUsage emptyUsage classificationUsage) (some ackAndUsage.2)
  let answerPayload := nonDataAnswerPayload ackAndUsage.1 modelName totalUsage
  emitStatusE "Drafting response…" 60 ++
    .llm (.nonDataResponse question) ::
      (emitStatusE "Finalizing response…" 90 ++
        .insertAssistantMessage ackAndUsage.1 answerPayload ::
          .insertTokenUsage { model := modelName,
                              prompt_tokens := totalUsage.input_tokens,
                              completion_tokens := totalUsage.output_tokens,
                              total_tokens := totalUsage.total_tokens } ::
            (emitStatusE "Done." 100 ++
              [.finalEvt convId (.list env.dbMessagesAfterTurn) answerPayload]))

/-- `answerSummary` truncation in `logAnswerTelemetry`. -/
def answerSummaryOf (answerText : String) : Option String :=
  if answerText == "" then none
  else if 500 < answerText.toList.length then
    some (String.mk (answerText.toList.take 497) ++ "...")
  else some answerText

/-- The cadence-gated summary maintainer: `updateMessageSummary` →
`maybeUpdateConversationSummary` with `MIN_MESSAGES_FOR_SUMMARY = 2` and
`SUMMARY_MESSAGE_INTERVAL = 12` (`lib/chat/buildAnswer.js`).  Returns the
produced effects together with the `{messages, usage}` object. -/
def updateMessageSummaryT (env : Env) : List Effect × (List MessageRecord × Usage) :=
  let messages := env.dbMessagesAfterTurn
  let messageCount := messages.length
  if messageCount < 2 || messageCount % 12 != 0 then ([], (messages, emptyUsage))
  else
    match env.summaryResp with
    | .error _ => ([.llm .conversationSummary], (messages, emptyUsage))
    | .ok (text, u) =>
      let updatedSummary := jsTrimString text
      if updatedSummary == "" then ([.llm .conversationSummary], (messages, u))
      else ([.llm .conversationSummary, .updateConversationSummary updatedSummary],
            (messages, u))

/-- A conditional singleton effect list (`if (...) { emit / insert }`). -/
def optEvent (b : Bool) (e : Effect) : List Effect :=
  if b then [e] else []

/-- The data path of the handler (steps 4–7 of `pages/api/chat/ask.js`):
context gathering (core-database reads, no effects in this model), NL→SQL
translation, scoped execution, SqlQueryRecord logging, summarization,
telemetry, table/chart/payload assembly, persistence, summary
maintenance, and the final event.  After `executeDataSQL` the handler
never consults `status`/`executionError`, so the pipeline continues
unconditionally. -/
def dataPath (env : Env) (req : Request) (tenant : Tenant) (convId : Nat) :
    List Effect :=
  emitStatusE "Gathering user context…" 25 ++
    emitStatusE "Getting Business Context..." 35 ++
      emitStatusE "Generating SQL query…" 50 ++
        .llm (.convertSQL req.question) ::
          match env.convertResp with
          | .error _ => [.errorEvt 500 "INTERNAL_SERVER_ERROR" "Internal server error"]
          | .ok (raw, _sqlUsage) =>
            let sql := cleanSqlResponse raw
            let exec := executeDataSQL env.dataDb tenant sql
            emitStatusE "Running query on database…" 65 ++
              (match assertReadOnly sql with
               | .ok _ => [.dataDbQuery (enforceScope sql tenant.scope_filter)]
               | .error _ => []) ++
                .insertSqlQuery { sql_text := exec.sql, status := exec.status,
                                  rows_returned := exec.rowCount,
                                  error_message := exec.errorMessage,
                                  duration_ms := env.durationMs } ::
                  (emitStatusE "Summarizing results…" 80 ++
                    .llm (.summarizeAnswer sql) ::
                      match env.answerResp with
                      | .error _ =>
                        [.errorEvt 500 "INTERNAL_SERVER_ERROR" "Internal server error"]
                      | .ok (answerText, usage) =>
                        let retrievedDocs := if req.useRag then env.retrievedDocs else []
                        .insertQueryLog
                            { question := jsTrimString req.question,
                              answer_summary := answerSummaryOf answerText,
                              sql_query := sql,
                              used_rag := req.useRag && decide (0 < retrievedDocs.length),
                              model := MODEL_NAME,
                              prompt_tokens := usage.input_tokens,
                              completion_tokens := usage.output_tokens,
                              total_tokens := usage.total_tokens,
                              latency_ms := env.durationMs } ::
                          optEvent (decide (0 < retrievedDocs.length))
                              (.insertQuerySources retrievedDocs.length) ++
                            let tableResult :=
                              buildTable exec.fields exec.rows convId
                                MAX_TABLE_ROWS_IN_RESPONSE CSV_EXPORT_ROW_THRESHOLD env.now
                            let chartBuilt := buildAreaChart exec.fields exec.rows env.chartMetricResp
                            optEvent chartBuilt.1 (.llm .chartMetric) ++
                              let ragMeta := buildRagMeta req.useRag retrievedDocs env.ragError
                              let answerPayload :=
                                buildAnswerPayload answerText sql env.sqlQueryInsertId usage
                                  MODEL_NAME tableResult.table tableResult.downloads
                                  chartBuilt.2 ragMeta
                              emitStatusE "Finalizing response…" 92 ++
                                .insertAssistantMessage answerText answerPayload ::
                                  .insertTokenUsage
                                      { model := MODEL_NAME,
                                        prompt_tokens := usage.input_tokens,
                                        completion_tokens := usage.output_tokens,
                                        total_tokens := usage.total_tokens } ::
                                    let summaryOut := updateMessageSummaryT env
                                    summaryOut.1 ++
                                      emitStatusE "Done." 100 ++
                                        [.finalEvt convId
                                            (.summaryResult summaryOut.2.1 summaryOut.2.2)
                                            answerPayload])

/-- Steps shared by both paths once the user message is persisted:
classification, then the non-data hand-off or the data path.  The call to
`handleNonData` omits the `classificationUsage` argument, exactly as the
source call site does. -/
def afterBootstrap (env : Env) (req : Request) (tenant : Tenant) (convId : Nat) :
    List Effect :=
  emitStatusE "Understanding your question…" 8 ++
    .llm (.classify req.question) ::
      let isDataRequest := classifyOutcome env.classifyResp
      emitStatusE
          (if isDataRequest then "Preparing to query your data…" else "Preparing response…")
          (if isDataRequest then 15 else 20) ++
        if isDataRequest then dataPath env req tenant convId
        else handleNonData env req.question convId MODEL_NAME none

/-- The SSE handler of `pages/api/chat/ask.js` (multitenant): POST check,
auth and tenant resolution, request validation, conversation bootstrap
with user-message persistence, then classification and the two paths. -/
def handler (env : Env) (req : Request) : List Effect :=
  if req.method != "POST" then
    [.errorEvt 405 "METHOD_NOT_ALLOWED" "Method not allowed"]
  else
    match req.auth with
    | .unauthorized => [.errorEvt 401 "UNAUTHORIZED" "Unauthorized"]
    | .forbidden => [.errorEvt 403 "FORBIDDEN" "Tenant access denied"]
    | .tenantNotFound => [.errorEvt 404 "TENANT_NOT_FOUND" "Tenant not found"]
    | .ok _user tenant =>
      emitStatusE "Starting analysis…" 2 ++
        if jsTrimString req.question == "" then
          [.errorEvt 400 "INVALID_REQUEST" "Question is required"]
        else
          match req.conversationId with
          | some cid =>
            if req.conversationExists then
              .insertUserMessage (jsTrimString req.question) ::
                afterBootstrap env req tenant cid
            else [.errorEvt 404 "CONVERSATION_NOT_FOUND" "Conversation not found"]
          | none =>
            .insertConversation (deriveConversationTitle req.question) ::
              .insertUserMessage (jsTrimString req.question) ::
                afterBootstrap env req tenant env.newConvId

/-! ## Trace observers -/

/-- Is this effect an LLM invocation? -/
def isLlmEffect : Effect → Bool
  | .llm _ => true
  | _ => false

/-- Is this effect the user-message insert? -/
def isUserMessageInsert : Effect → Bool
  | .insertUserMessage _ => true
  | _ => false

/-- Is this effect an assistant-message insert? -/
def isAssistantInsert : Effect → Bool
  | .insertAssistantMessage _ _ => true
  | _ => false

/-- Is this effect a terminal SSE `error` event? -/
def isErrorEvt : Effect → Bool
  | .errorEvt _ _ _ => true
  | _ => false

/-- Is this effect the terminal SSE `final` event? -/
def isFinalEvt : Effect → Bool
  | .finalEvt _ _ _ => true
  | _ => false

/-- The persisted TokenUsageRecords of a trace, in order. -/
def tokenUsagesOf (t : List Effect) : List TokenUsageRecord :=
  t.filterMap fun e =>
    match e with
    | .insertTokenUsage r => some r
    | _ => none

/-- The persisted SqlQueryRecords of a trace, in order. -/
def sqlQueriesOf (t : List Effect) : List SqlQueryRecord :=
  t.filterMap fun e =>
    match e with
    | .insertSqlQuery r => some r
    | _ => none

/-- The persisted QueryLog telemetry rows of a trace, in order. -/
def queryLogsOf (t : List Effect) : List QueryLogRecord :=
  t.filterMap fun e =>
    match e with
    | .insertQueryLog r => some r
    | _ => none

/-- The emitted `final` payloads of a trace, in order. -/
def finalsOf (t : List Effect) : List (Nat × JsMessages × AnswerPayload) :=
  t.filterMap fun e =>
    match e with
    | .finalEvt c m p => some (c, m, p)
    | _ => none

/-! ## Concrete fixtures for the closed theorems -/

/-- A tenant with a non-empty row-level scope filter. -/
def tenantA : Tenant := { scope_filter := some "tenant_id = 1" }

/-- The authenticated user of the fixtures. -/
def userA : User := { userId := 7, tenantId := 1 }

/-- A well-formed data question against an existing conversation. -/
def reqData : Request :=
  { method := "POST", auth := .ok userA tenantA, conversationId := some 3,
    conversationExists := true, question := "How many stores do we have?",
    useRag := false }

/-- A non-data turn (the classifier answers NO). -/
def reqNonData : Request :=
  { method := "POST", auth := .ok userA tenantA, conversationId := some 3,
    conversationExists := true, question := "hello there", useRag := false }

/-- A simple stored message row. -/
def msgRec (i : Nat) : MessageRecord :=
  { id := i, role := if i % 2 == 0 then "user" else "assistant", content := "m",
    answer_payload := none, created_at := i }

/-- Twelve stored messages: exactly the count at which the
conversation-summary cadence fires (`12 ≥ 2` and `12 % 12 = 0`). -/
def twelveMessages : List MessageRecord := (List.range 12).map msgRec

/-- A turn whose generated SQL fails the read-only guard (no `LIMIT`):
`executeDataSQL` records an execution error. -/
def envSqlError : Env :=
  { newConvId := 9, classifyResp := .ok "YES",
    classifyUsage := { input_tokens := 4, output_tokens := 2, total_tokens := 6 },
    nonDataResp := .ok ("", emptyUsage), retrievedDocs := [], ragError := none,
    convertResp := .ok ("SELECT * FROM stores",
      { input_tokens := 10, output_tokens := 5, total_tokens := 15 }),
    dataDb := fun _ => .error "unreachable", durationMs := 12, sqlQueryInsertId := 41,
    answerResp := .ok ("I could not find any rows.",
      { input_tokens := 8, output_tokens := 3, total_tokens := 11 }),
    chartMetricResp := .ok (none, emptyUsage), summaryResp := .ok ("", emptyUsage),
    dbMessagesAfterTurn := [], now := 1000 }

/-- A fully successful data turn in which the summary cadence fires:
classification consumed 6 total tokens, translation 15, summarization 11,
chart inference 0 (no date column), and the mid-turn summary refresh 13. -/
def envTokens : Env :=
  { envSqlError with
    convertResp := .ok ("SELECT region, total FROM sales LIMIT 10",
      { input_tokens := 10, output_tokens := 5, total_tokens := 15 }),
    dataDb := fun _ =>
      .ok ([[("region", .vstr "north"), ("total", .vnum 5)]],
           [{ name := "region" }, { name := "total" }]),
    summaryResp := .ok ("A running summary.",
      { input_tokens := 7, output_tokens := 4, total_tokens := 13 }),
    dbMessagesAfterTurn := twelveMessages }

/-- A non-data turn whose classification call consumed 42 total tokens
while the non-data response call consumed none. -/
def envNonData : Env :=
  { envSqlError with
    classifyResp := .ok "NO",
    classifyUsage := { input_tokens := 30, output_tokens := 12, total_tokens := 42 },
    nonDataResp := .ok ("Hi! I analyze your retail data.", emptyUsage),
    dbMessagesAfterTurn := [msgRec 0, msgRec 1] }

/-- Chart fixture: a year-month column plus a metric column where one
sampled value is the non-numeric string "abc". -/
def chartColsC9 : List String := ["yearmonth", "sales"]

/-- Rows of the chart fixture (two parseable values, one not). -/
def chartRowsC9 : List Row :=
  [[("yearmonth", .vstr "2024-03"), ("sales", .vnum 7)],
   [("yearmonth", .vstr "2024-01"), ("sales", .vstr "abc")],
   [("yearmonth", .vstr "2024-02"), ("sales", .vnum 5)]]

/-- The chart the fixture produces. -/
def chartC9 : Chart :=
  { type := "basicareachart", xKey := "yearmonth", yKey := "sales",
    data := [{ x := "2024-01", y := .vstr "abc" },
             { x := "2024-02", y := .vnum 5 },
             { x := "2024-03", y := .vnum 7 }] }

/-- The AI metric-pick reply of the chart fixture. -/
def aiRespC9 : Except Unit (Option String × Usage) :=
  .ok (some "sales", { input_tokens := 3, output_tokens := 1, total_tokens := 4 })

/-- The spec's wording of the read-only guard's acceptance condition:
after whitespace normalization and uppercasing, the statement starts with
`SELECT `, has no comment marker, no ` UNION `, and has a ` LIMIT `
clause. -/
def readOnlySpecOk (sql : String) : Prop :=
  jsStartsWith (jsToUpper (normalize sql)) "SELECT " = true
  ∧ strIncludes (jsToUpper (normalize sql)) "--" = false
  ∧ strIncludes (jsToUpper (normalize sql)) "/*" = false
  ∧ strIncludes (jsToUpper (normalize sql)) "*/" = false
  ∧ strIncludes (jsToUpper (normalize sql)) " UNION " = false
  ∧ strIncludes (jsToUpper (normalize sql)) " LIMIT " = true

/-- The SqlQueryRecord the `envSqlError` turn persists. -/
def sqlErrorRecord : SqlQueryRecord :=
  { sql_text := "SELECT * FROM stores", status := "error", rows_returned := 0,
    error_message := some "LIMIT clause is required", duration_ms := 12 }

/-- The TokenUsageRecord the `envTokens` turn persists: exactly the
summarization call's usage. -/
def summarizerOnlyUsageRecord : TokenUsageRecord :=
  { model := "gpt-4.1-mini", prompt_tokens := 8, completion_tokens := 3,
    total_tokens := 11 }

/-- The all-zero TokenUsageRecord the `envNonData` turn persists. -/
def zeroTokensRecord : TokenUsageRecord :=
  { model := "gpt-4.1-mini", prompt_tokens := 0, completion_tokens := 0,
    total_tokens := 0 }

/-- A data database that answers only the correctly scope-wrapped
statement (used to witness the wrapping). -/
def dbW : String → Except String (List Row × List Field) := fun s =>
  if s == scopeWrap "SELECT name FROM stores LIMIT 5" "tenant_id = 1" then
    .ok ([[("name", JsVal.vstr "a")]], [{ name := "name" }])
  else .error "unexpected statement"

/-! ## Helper lemmas -/

/-- A prefix of a trace with no LLM effect has no LLM effect. -/
theorem any_take_false {l : List Effect} {p : Effect → Bool}
    (h : l.all (fun e => !p e) = true) (n : Nat) : (l.take n).any p = false := by
  rw [List.any_eq_false]
  intro x hx
  have hxl : x ∈ l := List.take_subset n l hx
  have := List.all_eq_true.mp h x hxl
  simp only [Bool.not_eq_true'] at this
  simp [this]

/-- In a trace of the form `A ++ insertUserMessage q :: B` with no LLM
effect in `A`, every prefix that contains an LLM effect also contains the
user-message insert. -/
theorem take_shape_any {A B : List Effect} {q : String}
    (hA : A.all (fun e => !isLlmEffect e) = true) (n : Nat)
    (h : ((A ++ .insertUserMessage q :: B).take n).any isLlmEffect = true) :
    ((A ++ .insertUserMessage q :: B).take n).any isUserMessageInsert = true := by
  rw [List.take_append_eq_append_take, List.any_append] at h ⊢
  rcases le_or_lt n A.length with hn | hn
  · exfalso
    have h0 : n - A.length = 0 := Nat.sub_eq_zero_of_le hn
    rw [h0] at h
    simp only [List.take_zero, List.any_nil, Bool.or_false] at h
    rw [any_take_false hA n] at h
    cases h
  · have h1 : n - A.length = (n - A.length - 1) + 1 := by omega
    rw [h1]
    simp [List.take_succ_cons, isUserMessageInsert]

/-- Every handler trace either contains no LLM call at all, or splits as
an LLM-free prefix followed by the user-message insert. -/
theorem handler_shape (env : Env) (req : Request) :
    (handler env req).all (fun e => !isLlmEffect e) = true ∨
    ∃ A B q, handler env req = A ++ .insertUserMessage q :: B ∧
      A.all (fun e => !isLlmEffect e) = true := by
  unfold handler
  by_cases hm : (req.method != "POST") = true
  · rw [if_pos hm]
    left; rfl
  · rw [if_neg hm]
    cases hauth : req.auth with
    | unauthorized => left; rfl
    | forbidden => left; rfl
    | tenantNotFound => left; rfl
    | ok user tenant =>
      dsimp only
      by_cases hq : (jsTrimString req.question == "") = true
      · rw [if_pos hq]
        left; rfl
      · rw [if_neg hq]
        cases hc : req.conversationId with
        | some cid =>
          cases hex : req.conversationExists with
          | true =>
            simp only [hex, if_true]
            right
            exact ⟨emitStatusE "Starting analysis…" 2,
              afterBootstrap env req tenant cid, jsTrimString req.question, rfl, rfl⟩
          | false =>
            simp only [hex, if_false]
            left; rfl
        | none =>
          right
          refine ⟨emitStatusE "Starting analysis…" 2 ++
              [Effect.insertConversation (deriveConversationTitle req.question)],
            afterBootstrap env req tenant env.newConvId, jsTrimString req.question, ?_, ?_⟩
          · rw [List.append_assoc]
            rfl
          · rfl

/-- Code-point comparison is total. -/
theorem charListLe_total :
    ∀ a b : List Char, charListLe a b = true ∨ charListLe b a = true := by
  intro a
  induction a with
  | nil => intro b; left; rfl
  | cons x xs ih =>
    intro b
    cases b with
    | nil => right; rfl
    | cons y ys =>
      simp only [charListLe]
      rcases Nat.lt_trichotomy x.toNat y.toNat with hlt | heq | hgt
      · left
        rw [if_neg (Nat.ne_of_lt hlt)]
        simpa using hlt
      · rw [if_pos heq, if_pos heq.symm]
        exact ih ys
      · right
        rw [if_neg (Nat.ne_of_lt hgt)]
        simpa using hgt

/-- Code-point comparison is transitive. -/
theorem charListLe_trans :
    ∀ a b c : List Char, charListLe a b = true → charListLe b c = true →
      charListLe a c = true := by
  intro a
  induction a with
  | nil => intro b c _ _; rfl
  | cons x xs ih =>
    intro b c hab hbc
    cases b with
    | nil => cases hab
    | cons y ys =>
      cases c with
      | nil => cases hbc
      | cons z zs =>
        simp only [charListLe] at hab hbc ⊢
        split_ifs at hab hbc ⊢ with c1 c2 c3
        all_goals first
          | exact ih ys zs hab hbc
          | (simp only [decide_eq_true_eq] at *; omega)

/-- The row sample is capped at the requested size. -/
theorem clampArray_length_le {α : Type} (l : List α) (m : Nat) :
    (clampArray l m).length ≤ m := by
  unfold clampArray
  split
  · omega
  · simp only [List.length_take]
    omega

/-- A conditional singleton contributes nothing to a `filterMap` that
ignores its element. -/
theorem filterMap_optEvent {β : Type} (g : Effect → Option β) (b : Bool) (e : Effect)
    (he : g e = none) : (optEvent b e).filterMap g = [] := by
  cases b <;> simp [optEvent, he]

/-- The summary maintainer's effects contribute nothing to a `filterMap`
that ignores LLM calls and summary updates. -/
theorem filterMap_summaryEvents {β : Type} (env : Env) (g : Effect → Option β)
    (h1 : g (.llm .conversationSummary) = none)
    (h2 : ∀ s, g (.updateConversationSummary s) = none) :
    ((updateMessageSummaryT env).1).filterMap g = [] := by
  unfold updateMessageSummaryT
  dsimp only
  split
  · rfl
  · split
    · simp [h1]
    · split <;> simp [h1, h2]

/-- The read-only guard accepts exactly the statements satisfying the
spec's four conditions. -/
theorem assertReadOnly_ok_iff (sql : String) :
    assertReadOnly sql = .ok () ↔ readOnlySpecOk sql := by
  unfold assertReadOnly readOnlySpecOk
  dsimp only
  split_ifs with h1 h2 h3 h4
  · simp only [Bool.not_eq_true'] at h1
    simp [h1]
  · simp only [Bool.or_eq_true] at h2
    constructor
    · intro h; cases h
    · rintro ⟨q1, q2, q3, q4, q5, q6⟩
      rw [q2, q3, q4] at h2
      simp at h2
  · constructor
    · intro h; cases h
    · rintro ⟨q1, q2, q3, q4, q5, q6⟩
      rw [q5] at h3; cases h3
  · simp only [Bool.not_eq_true'] at h4
    constructor
    · intro h; cases h
    · rintro ⟨q1, q2, q3, q4, q5, q6⟩
      rw [q6] at h4; cases h4
  · simp only [Bool.not_eq_true', Bool.not_eq_false] at h1 h4
    simp only [Bool.or_eq_true, not_or, Bool.not_eq_true] at h2
    constructor
    · intro _
      exact ⟨h1, h2.1.1, h2.1.2, h2.2, by simpa using h3, h4⟩
    · intro _; rfl

/-! ## Claim theorems -/

/-- C1 (counterexample): the claim states that
`"SELECT * FROM t LIMIT 10; DROP TABLE t"` is rejected as a stacked
statement, but the guard accepts it (the multi-statement check is
commented out in the source), and the executor then runs it
(scope-wrapped) against the data database. -/
theorem claim_C1_counterexample_stacked_accepted :
    assertReadOnly "SELECT * FROM t LIMIT 10; DROP TABLE t" = Except.ok ()
    ∧ runTenantScopedQuery (fun _ => .ok ([], [])) tenantA
        "SELECT * FROM t LIMIT 10; DROP TABLE t" =
      .ok { rows := [], fields := [],
            sql := scopeWrap "SELECT * FROM t LIMIT 10; DROP TABLE t" "tenant_id = 1" } :=
  ⟨by decide, by decide⟩

/-- C1 (amended): the read-only guard raises a typed error unless the
statement, after whitespace normalization and case-insensitive
comparison, starts with `SELECT `, contains a ` LIMIT ` clause, contains
no SQL comment marker and no ` UNION `; `"select * from t limit 10"` is
accepted, `"SELECT * FROM t"` is rejected (`SQL_LIMIT_REQUIRED`), the
`UNION` example is rejected (`SQL_UNION_NOT_ALLOWED`), a non-SELECT
statement is rejected (`SQL_NOT_READ_ONLY`) — but the stacked-statement
example `"SELECT * FROM t LIMIT 10; DROP TABLE t"` is accepted, because
the multi-statement check is commented out. -/
theorem claim_C1_amended_guard :
    (∀ sql : String, assertReadOnly sql = .ok () ↔ readOnlySpecOk sql)
    ∧ assertReadOnly "select * from t limit 10" = .ok ()
    ∧ assertReadOnly "SELECT * FROM t" =
        .error { message := "LIMIT clause is required", code := "SQL_LIMIT_REQUIRED" }
    ∧ assertReadOnly "SELECT * FROM a UNION SELECT * FROM b LIMIT 5" =
        .error { message := "UNION queries are not allowed", code := "SQL_UNION_NOT_ALLOWED" }
    ∧ assertReadOnly "SELECT * FROM t LIMIT 10; DROP TABLE t" = .ok ()
    ∧ assertReadOnly "DROP TABLE t" =
        .error { message := "Only SELECT queries are allowed", code := "SQL_NOT_READ_ONLY" } :=
  ⟨assertReadOnly_ok_iff, by decide, by decide, by decide, by decide, by decide⟩

/-- C2: for every statement that passes the read-only guard, a non-empty
tenant scope filter makes the executed statement exactly the wrap
`SELECT * FROM (<original>) AS scoped_result WHERE (<scopeFilter>)`; an
absent or empty filter leaves the statement unchanged; and under the SQL
semantics of the wrapper shape every returned row satisfies the filter
predicate, so an `OR` inside the inner statement cannot short-circuit
it. -/
theorem claim_C2_scope_wrapping
    (db : String → Except String (List Row × List Field)) (tenant : Tenant) (sql : String)
    (hguard : assertReadOnly sql = .ok ()) :
    (∀ f, tenant.scope_filter = some f → (f == "") = false →
      ∀ rows fields, db (scopeWrap sql f) = .ok (rows, fields) →
        runTenantScopedQuery db tenant sql =
          .ok { rows := rows, fields := fields, sql := scopeWrap sql f })
    ∧ ((tenant.scope_filter = none ∨ tenant.scope_filter = some "") →
      ∀ rows fields, db sql = .ok (rows, fields) →
        runTenantScopedQuery db tenant sql = .ok { rows := rows, fields := fields, sql := sql })
    ∧ (∀ (innerRows : List Row) (scopePred : Row → Bool) (r : Row),
        r ∈ evalScopedWrapper innerRows scopePred → scopePred r = true) := by
  refine ⟨?_, ?_, ?_⟩
  · intro f hf hfne rows fields hdb
    simp [runTenantScopedQuery, hguard, enforceScope, hf, hfne, hdb]
  · rintro (hf | hf) rows fields hdb <;>
      simp [runTenantScopedQuery, hguard, enforceScope, hf, hdb]
  · intro innerRows scopePred r hr
    simpa [evalScopedWrapper] using (List.mem_filter.mp hr).2

/-- C2 (witness): concrete run with filter `tenant_id = 1` against a
database that only answers the wrapped statement. -/
theorem claim_C2_witness :
    runTenantScopedQuery dbW tenantA "SELECT name FROM stores LIMIT 5" =
      .ok { rows := [[("name", JsVal.vstr "a")]], fields := [{ name := "name" }],
            sql := scopeWrap "SELECT name FROM stores LIMIT 5" "tenant_id = 1" } :=
  (claim_C2_scope_wrapping dbW tenantA "SELECT name FROM stores LIMIT 5" (by decide)).1
    "tenant_id = 1" rfl (by decide) [[("name", JsVal.vstr "a")]] [{ name := "name" }]
    (by decide)

/-- C3 (code bug): on a data turn whose SQL fails the pre-execution
guard, the SqlQueryRecord is durably written with status `"error"`, but
the handler emits no error event at all (in particular no
`SQL_EXECUTION_ERROR`), persists an assistant message for the failed
attempt, and emits `final` — the claim's terminal error behaviour is
absent from the code. -/
theorem claim_C3_sql_error_not_terminal :
    sqlQueriesOf (handler envSqlError reqData) = [sqlErrorRecord]
    ∧ (handler envSqlError reqData).any isErrorEvt = false
    ∧ (handler envSqlError reqData).any isAssistantInsert = true
    ∧ (handler envSqlError reqData).any isFinalEvt = true :=
  ⟨by decide, by decide, by decide, by decide⟩

/-- C4 (code bug): on a completed data turn with classification usage 6,
translation usage 15, summarization usage 11, chart usage 0 and a fired
mid-turn summary refresh of 13, the persisted TokenUsageRecord and
`answerPayload.meta.tokens` both hold 11 — only the summarization call's
usage — not the claimed sum 32 (nor 45 after the refresh), and nothing is
rewritten when the refresh fires. -/
theorem claim_C4_token_totals_not_aggregated :
    tokenUsagesOf (handler envTokens reqData) = [summarizerOnlyUsageRecord]
    ∧ (finalsOf (handler envTokens reqData)).map (fun x => x.2.2.meta.tokens.total) = [11]
    ∧ envTokens.classifyUsage.total_tokens = 6
    ∧ summarizerOnlyUsageRecord.total_tokens ≠ 6 + 15 + 11 + 0
    ∧ summarizerOnlyUsageRecord.total_tokens ≠ 6 + 15 + 11 + 0 + 13 :=
  ⟨by decide, by decide, by decide, by decide, by decide⟩

/-- C5: in every prefix of every handler trace (hence also when any later
step throws and truncates the turn), if an LLM call has occurred then the
user's message insert has already occurred: the user's question is
durably stored before any language-model call. -/
theorem claim_C5_user_message_before_llm (env : Env) (req : Request) (n : Nat)
    (h : ((handler env req).take n).any isLlmEffect = true) :
    ((handler env req).take n).any isUserMessageInsert = true := by
  rcases handler_shape env req with hall | ⟨A, B, q, heq, hA⟩
  · rw [any_take_false hall n] at h
    cases h
  · rw [heq] at h ⊢
    exact take_shape_any hA n h

/-- C5 (witness): the 9-effect prefix of a concrete turn contains the
classification LLM call and the user-message insert. -/
theorem claim_C5_witness :
    (((handler envNonData reqNonData).take 9).any isLlmEffect = true)
    ∧ (((handler envNonData reqNonData).take 9).any isUserMessageInsert = true) :=
  ⟨by decide, claim_C5_user_message_before_llm envNonData reqNonData 9 (by decide)⟩

/-- C6: for every result set and caps, the assembled table block has
`rowCount = N`, `truncated = (N > maxRows)`, `rows.length = min N
maxRows`, and contains exactly one CSV download entry iff `N` meets the
export threshold. -/
theorem claim_C6_table_shape (fields : List Field) (rows : List Row)
    (convId maxRows csvThreshold now : Nat) :
    (buildTable fields rows convId maxRows csvThreshold now).table.rowCount = rows.length
    ∧ (buildTable fields rows convId maxRows csvThreshold now).table.truncated
        = decide (maxRows < rows.length)
    ∧ (buildTable fields rows convId maxRows csvThreshold now).table.rows.length
        = min rows.length maxRows
    ∧ (buildTable fields rows convId maxRows csvThreshold now).downloads.length
        = (if csvThreshold ≤ rows.length then 1 else 0)
    ∧ (buildTable fields rows convId maxRows csvThreshold now).downloads.all
        (fun d => d.kind == "csv") = true := by
  unfold buildTable
  dsimp only
  refine ⟨rfl, rfl, ?_, ?_, ?_⟩
  · by_cases h : maxRows < rows.length
    · simp only [if_pos h, List.length_take]
      omega
    · simp only [if_neg h]
      omega
  · split <;> rfl
  · split <;> rfl

/-- C7 (code bug): on a non-data turn whose classification call consumed
42 total tokens, the persisted TokenUsageRecord and the AnswerPayload
token totals are all zero — the call site never passes the
classification usage (and `classifyDataRequest` never returns it), so the
totals equal the non-data response call's usage alone. -/
theorem claim_C7_classification_usage_dropped :
    tokenUsagesOf (handler envNonData reqNonData) = [zeroTokensRecord]
    ∧ (finalsOf (handler envNonData reqNonData)).map (fun x => x.2.2.meta.tokens.total) = [0]
    ∧ envNonData.classifyUsage.total_tokens = 42 :=
  ⟨by decide, by decide, by decide⟩

/-- C8 (code bug): the `final` event of a successfully completed data
turn carries, in its `messages` field, `updateMessageSummary`'s whole
`{messages, usage}` object rather than the array of Message records the
claim describes — the handler never destructures the return value. -/
theorem claim_C8_final_messages_not_array :
    (finalsOf (handler envTokens reqData)).map (fun x => x.2.1) =
      [JsMessages.summaryResult twelveMessages
        { input_tokens := 7, output_tokens := 4, total_tokens := 13 }]
    ∧ (finalsOf (handler envTokens reqData)).map (fun x => isMessageArray x.2.1) = [false] :=
  ⟨by decide, by decide⟩

/-- C9 (counterexample): the claim states every chart point's metric
value is numeric and rows with unparseable metric values are dropped, but
a row whose metric cell is the unparseable string "abc" yields a chart
point carrying that string verbatim. -/
theorem claim_C9_counterexample_unparseable_metric :
    (buildBasicAreaChartPayload chartColsC9 chartRowsC9 aiRespC9).2.chart = some chartC9
    ∧ chartC9.data.any
        (fun p => match p.y with | .vstr _ => true | _ => false) = true :=
  ⟨by decide, by decide⟩

/-- C9 (amended): every chart built by chart inference maps each of the
first 200 sampled rows through the point constructor (dropping rows whose
date normalizes to null or whose metric cell is null/empty — but keeping
unparseable non-empty strings verbatim), caps the series at 200 points,
sorts it ascending by the date key in code-point (lexicographic) order,
and is emitted only when the resulting series is non-empty. -/
theorem claim_C9_amended_series
    (columns : List String) (rows : List Row) (aiResp : Except Unit (Option String × Usage))
    (c : Chart) (h : (buildBasicAreaChartPayload columns rows aiResp).2.chart = some c) :
    c.data = List.insertionSort (fun a b => xLe a b = true)
        ((clampArray rows 200).filterMap (chartPointOfRow c.xKey c.yKey))
    ∧ c.data.length ≤ 200
    ∧ List.Pairwise (fun a b => xLe a b = true) c.data
    ∧ c.data ≠ []
    ∧ ∀ p ∈ c.data, ∃ r ∈ clampArray rows 200, chartPointOfRow c.xKey c.yKey r = some p := by
  haveI instTotal : IsTotal ChartPoint (fun a b => xLe a b = true) :=
    ⟨fun a b => charListLe_total a.x.toList b.x.toList⟩
  haveI instTrans : IsTrans ChartPoint (fun a b => xLe a b = true) :=
    ⟨fun a b c2 hab hbc => charListLe_trans _ _ _ hab hbc⟩
  unfold buildBasicAreaChartPayload at h
  rcases hdk : detectYearMonthKey columns with _ | dk <;> rw [hdk] at h
  · cases h
  · dsimp only at h
    by_cases hcand : (getNumericCandidateKeys columns rows dk).isEmpty = true
    · rw [if_pos hcand] at h
      cases h
    · rw [if_neg hcand] at h
      rcases hmk : (chooseMetricKey (getNumericCandidateKeys columns rows dk) aiResp).1
          with _ | mk <;> rw [hmk] at h
      · cases h
      · dsimp only at h
        by_cases hne : (buildChartData dk mk rows).isEmpty = true
        · rw [if_pos hne] at h
          cases h
        · rw [if_neg hne] at h
          dsimp only at h
          simp only [Option.some.injEq] at h
          subst h
          dsimp only
          refine ⟨rfl, ?_, ?_, ?_, ?_⟩
          · have hperm := List.perm_insertionSort
              (fun a b => xLe a b = true)
              ((clampArray rows 200).filterMap (chartPointOfRow dk mk))
            calc (buildChartData dk mk rows).length
                = ((clampArray rows 200).filterMap (chartPointOfRow dk mk)).length := by
                  unfold buildChartData
                  exact hperm.length_eq
              _ ≤ (clampArray rows 200).length := List.length_filterMap_le _ _
              _ ≤ 200 := clampArray_length_le rows 200
          · have hs := List.sorted_insertionSort (r := fun a b => xLe a b = true)
              ((clampArray rows 200).filterMap (chartPointOfRow dk mk))
            unfold buildChartData
            exact hs
          · intro hcontra
            rw [hcontra] at hne
            simp at hne
          · intro p hp
            have hperm := List.perm_insertionSort (fun a b => xLe a b = true)
              ((clampArray rows 200).filterMap (chartPointOfRow dk mk))
            have hp2 : p ∈ (clampArray rows 200).filterMap (chartPointOfRow dk mk) := by
              unfold buildChartData at hp
              exact hperm.mem_iff.mp hp
            exact List.mem_filterMap.mp hp2

/-- C9 (witness): the amended theorem applied to the concrete chart
fixture. -/
theorem claim_C9_witness :
    chartC9.data.length ≤ 200
    ∧ List.Pairwise (fun a b => xLe a b = true) chartC9.data
    ∧ chartC9.data ≠ [] := by
  have h := claim_C9_amended_series chartColsC9 chartRowsC9 aiRespC9 chartC9 (by decide)
  exact ⟨h.2.1, h.2.2.1, h.2.2.2.1⟩

/-- C10: on a data turn whose translated SQL passes the guard and whose
tenant has a non-empty scope filter, the SqlQueryRecord persists the
scope-wrapped statement (the one actually executed) on success and the
pre-wrap statement on failure, while the summarizer prompt, the QueryLog
telemetry and `answerPayload.meta.sql` all carry the translator's
pre-wrap SQL. -/
theorem claim_C10_sql_provenance
    (env : Env) (req : Request) (tenant : Tenant) (convId : Nat)
    (raw : String) (su : Usage) (f : String) (answerText : String) (au : Usage)
    (hconv : env.convertResp = .ok (raw, su))
    (hf : tenant.scope_filter = some f) (hfne : (f == "") = false)
    (hguard : assertReadOnly (cleanSqlResponse raw) = .ok ())
    (hans : env.answerResp = .ok (answerText, au)) :
    (Effect.llm (.summarizeAnswer (cleanSqlResponse raw)) ∈ dataPath env req tenant convId)
    ∧ (queryLogsOf (dataPath env req tenant convId)).map (fun r => r.sql_query)
        = [cleanSqlResponse raw]
    ∧ (finalsOf (dataPath env req tenant convId)).map (fun x => x.2.2.meta.sql)
        = [some (cleanSqlResponse raw)]
    ∧ (sqlQueriesOf (dataPath env req tenant convId)).map (fun r => (r.sql_text, r.status))
        = [match env.dataDb (scopeWrap (cleanSqlResponse raw) f) with
           | .ok _ => (scopeWrap (cleanSqlResponse raw) f, "success")
           | .error _ => (cleanSqlResponse raw, "error")] := by
  rcases hdb : env.dataDb (scopeWrap (cleanSqlResponse raw) f) with m | rf
  · refine ⟨?_, ?_, ?_, ?_⟩ <;>
      simp [dataPath, hconv, hans, executeDataSQL, runTenantScopedQuery, hguard,
        enforceScope, hf, hfne, hdb, queryLogsOf, finalsOf, sqlQueriesOf, emitStatusE,
        List.filterMap_append, filterMap_optEvent, filterMap_summaryEvents,
        buildAnswerPayload]
  · obtain ⟨rows, fields⟩ := rf
    refine ⟨?_, ?_, ?_, ?_⟩ <;>
      simp [dataPath, hconv, hans, executeDataSQL, runTenantScopedQuery, hguard,
        enforceScope, hf, hfne, hdb, queryLogsOf, finalsOf, sqlQueriesOf, emitStatusE,
        List.filterMap_append, filterMap_optEvent, filterMap_summaryEvents,
        buildAnswerPayload]

/-- C10 (witness): the provenance theorem applied to the concrete
successful turn: the persisted SqlQueryRecord holds the scope-wrapped
statement while the telemetry holds the pre-wrap statement. -/
theorem claim_C10_witness :
    (Effect.llm (.summarizeAnswer (cleanSqlResponse "SELECT region, total FROM sales LIMIT 10"))
        ∈ dataPath envTokens reqData tenantA 3)
    ∧ (queryLogsOf (dataPath envTokens reqData tenantA 3)).map (fun r => r.sql_query)
        = [cleanSqlResponse "SELECT region, total FROM sales LIMIT 10"]
    ∧ (sqlQueriesOf (dataPath envTokens reqData tenantA 3)).map
          (fun r => (r.sql_text, r.status))
        = [(scopeWrap (cleanSqlResponse "SELECT region, total FROM sales LIMIT 10")
              "tenant_id = 1", "success")] := by
  have h := claim_C10_sql_provenance envTokens reqData tenantA 3
    "SELECT region, total FROM sales LIMIT 10"
    { input_tokens := 10, output_tokens := 5, total_tokens := 15 }
    "tenant_id = 1" "I could not find any rows."
    { input_tokens := 8, output_tokens := 3, total_tokens := 11 }
    rfl rfl (by decide) (by decide) rfl
  exact ⟨h.1, h.2.1, h.2.2.2⟩

end RetailAnalyst
